import Mathlib

/-!
Verification of the agent-lens orchestrator core against its specification.

The definitions below are a shallow embedding of the Python sources under
`services/orchestrator/src/`: `state.py` (the orchestration state and its
methods), `graph.py` (the routing functions of the LangGraph state machine),
`errors.py` (error classifier and retry policy), `inference_client.py`
(OOM tier fallback), `tools.py` (the read-file sandbox check),
`agents/coder.py` (prompt construction) and `agents/executor.py`
(the legacy single-file execution fallback).

Python `str` is modelled by `String`, non-negative `int` counters by `Nat`,
`float` by `ℚ` (the arithmetic appearing in the claims is exact on the
rationals), dictionaries by association lists, and `None`-able values by
`Option`.  Definitions named `...Spec` are transcriptions of the wording of
the specification, used to compare against the transcriptions of the source.
-/

/-- One conversation message, mirroring the message dicts built by
`OrchestratorState.add_message` in `state.py`: keys `role`, `content`,
optional `agent`, and the `compressed` marker added by `compress_context`
(absent, i.e. `false`, on ordinary messages). -/
structure Message where
  role : String
  content : String
  agent : Option String
  compressed : Bool
deriving Repr, DecidableEq

/-- One audit entry appended by `OrchestratorState.add_history`. -/
structure HistoryEntry where
  agent : String
  action : String
  result : String
deriving Repr, DecidableEq

/-- Model of `FileSpec` from `state.py`. -/
structure FileSpec where
  path : String
  description : String
  content : String
  generated : Bool
deriving Repr, DecidableEq

/-- Model of `ExecutionStep` from `state.py`. -/
structure ExecutionStep where
  cmd : String
  label : String
  background : Bool
  port : Option Nat
  requires_approval : Bool
deriving Repr, DecidableEq

/-- Model of `ExecutionPlan` from `state.py`. -/
structure ExecutionPlan where
  steps : List ExecutionStep
  preview_type : String
  preview_url : String
deriving Repr, DecidableEq

/-- Model of `OrchestratorState` from `state.py`, with every field of the pydantic
model.  The untyped `plan` dict and `workspace_files` dict are modelled as
association lists; none of the verified claims depends on their inner
structure. -/
structure OrchestratorState where
  task : String
  plan : List (String × String)
  planned_files : List FileSpec
  execution_plan : Option ExecutionPlan
  current_file_index : Nat
  current_subtask : Nat
  code : String
  file_path : String
  review_passed : Bool
  review_feedback : String
  review_attempts : Nat
  max_review_attempts : Nat
  execution_output : String
  execution_success : Bool
  preview_url : String
  current_agent : String
  error_count : Nat
  max_retries : Nat
  history : List HistoryEntry
  messages : List Message
  context_tokens : Nat
  max_context_tokens : Nat
  context_compressed : Bool
  workspace_files : List (String × String)
deriving Repr, DecidableEq

/-- The state built by `OrchestratorState(task=task)`: every other field takes
its pydantic default from `state.py` (`max_review_attempts=2`,
`max_retries=3`, `max_context_tokens=4096`, empty/false everything else).
This is the initial state of `run_orchestration` in `graph.py`. -/
def initState (task : String) : OrchestratorState where
  task := task
  plan := []
  planned_files := []
  execution_plan := none
  current_file_index := 0
  current_subtask := 0
  code := ""
  file_path := ""
  review_passed := false
  review_feedback := ""
  review_attempts := 0
  max_review_attempts := 2
  execution_output := ""
  execution_success := false
  preview_url := ""
  current_agent := ""
  error_count := 0
  max_retries := 3
  history := []
  messages := []
  context_tokens := 0
  max_context_tokens := 4096
  context_compressed := false
  workspace_files := []

/-- Model of `OrchestratorState.can_retry` from `state.py`. -/
def canRetry (s : OrchestratorState) : Bool :=
  s.error_count < s.max_retries

/-- Model of `OrchestratorState.can_retry_review` from `state.py`. -/
def canRetryReview (s : OrchestratorState) : Bool :=
  s.review_attempts < s.max_review_attempts

/-- Result of the conditional edge after the Reviewer node in `graph.py`. -/
inductive RouteAfterReview where
  | execute
  | fix
deriving Repr, DecidableEq

/-- Result of the conditional edge after the Executor node in `graph.py`
(`"retry"` maps to the Coder node, `"end"` terminates the graph). -/
inductive RouteAfterExec where
  | retry
  | stop
deriving Repr, DecidableEq

/-- Model of `should_execute_or_fix` from `graph.py`: review passed goes to the
executor; a failed review retries while `can_retry_review()` holds, and
otherwise proceeds to execution anyway. -/
def shouldExecuteOrFix (s : OrchestratorState) : RouteAfterReview :=
  if s.review_passed then .execute
  else if canRetryReview s then .fix
  else .execute

/-- Model of `should_retry_or_end` from `graph.py`.  The Python function mutates the
state (incrementing `error_count`, resetting `review_attempts` and
`review_passed`) before returning the route, so it is modelled as returning
the updated state together with the route. -/
def shouldRetryOrEnd (s : OrchestratorState) : OrchestratorState × RouteAfterExec :=
  if s.execution_success then (s, .stop)
  else if canRetry s then
    ({s with error_count := s.error_count + 1,
             review_attempts := 0,
             review_passed := false}, .retry)
  else (s, .stop)

/-- Transcription of the wording of claim C4 (spec §4.10, routing after the
Executor): on success the run ends with the state untouched; otherwise if
`error_count < max_retries` then `error_count` is incremented by exactly one,
`review_attempts` is reset to `0`, `review_passed` is reset to `false`, and
control routes to the Coder; otherwise the run ends with the state
untouched. -/
def executorRouteSpec (s : OrchestratorState) : OrchestratorState × RouteAfterExec :=
  if s.execution_success then (s, .stop)
  else if s.error_count < s.max_retries then
    ({s with error_count := s.error_count + 1,
             review_attempts := 0,
             review_passed := false}, .retry)
  else (s, .stop)

/-- Claim C4: the routing decision after the Executor node ends the run on
`execution_success`; otherwise, while `error_count < max_retries`, it
increments `error_count` by exactly one, resets `review_attempts` to 0 and
`review_passed` to false and routes to the Coder; otherwise it ends the run —
all other state fields being left unchanged by the router. -/
theorem c4_executor_router (s : OrchestratorState) :
    shouldRetryOrEnd s = executorRouteSpec s := by
  by_cases hs : s.execution_success <;>
    by_cases hc : s.error_count < s.max_retries <;>
      simp [shouldRetryOrEnd, executorRouteSpec, canRetry, hs, hc]

/-- Graph nodes of the orchestration state machine built in
`build_orchestration_graph` (`graph.py`), plus the terminal `END`. -/
inductive GNode where
  | architect
  | coder
  | reviewer
  | executor
  | done
deriving Repr, DecidableEq

/-- Frame condition for the Architect, Coder and Executor nodes (including
their crash bypasses in `graph.py`): none of them writes `error_count`,
`max_retries`, `review_attempts` or `max_review_attempts`.  The relation
over-approximates each node: it fixes only the four retry counters and lets
every other field change arbitrarily (their real values come from LLM and
subprocess output). -/
def CounterFrame (s s' : OrchestratorState) : Prop :=
  s'.error_count = s.error_count ∧ s'.max_retries = s.max_retries ∧
  s'.review_attempts = s.review_attempts ∧
  s'.max_review_attempts = s.max_review_attempts

/-- Frame condition for the Reviewer node: `ReviewerAgent.invoke` increments
`review_attempts` by exactly one when there is code to review, and leaves it
unchanged on the empty-code early return or the crash bypass of
`reviewer_node`; it never writes `error_count`, `max_retries` or
`max_review_attempts`.  Other fields (`review_passed`, feedback, history)
change arbitrarily. -/
def ReviewerFrame (s s' : OrchestratorState) : Prop :=
  s'.error_count = s.error_count ∧ s'.max_retries = s.max_retries ∧
  s'.max_review_attempts = s.max_review_attempts ∧
  (s'.review_attempts = s.review_attempts + 1 ∨
    s'.review_attempts = s.review_attempts)

/-- One transition of the orchestration graph from `graph.py`: a node runs
(its effect constrained by its frame relation) and the conditional edges
`should_execute_or_fix` / `should_retry_or_end` pick the next node, the
latter also mutating the state. -/
inductive GraphStep : GNode × OrchestratorState → GNode × OrchestratorState → Prop
  | architect_step {s s' : OrchestratorState} :
      CounterFrame s s' → GraphStep (.architect, s) (.coder, s')
  | coder_step {s s' : OrchestratorState} :
      CounterFrame s s' → GraphStep (.coder, s) (.reviewer, s')
  | reviewer_step {s s' : OrchestratorState} :
      ReviewerFrame s s' →
      GraphStep (.reviewer, s)
        ((match shouldExecuteOrFix s' with
          | .execute => .executor
          | .fix => .coder), s')
  | executor_step {s s' : OrchestratorState} :
      CounterFrame s s' →
      GraphStep (.executor, s)
        ((match (shouldRetryOrEnd s').2 with
          | .retry => .coder
          | .stop => .done), (shouldRetryOrEnd s').1)

/-- States reachable by the orchestration graph from the initial state of
`run_orchestration` (entry point: the Architect node). -/
def Reachable (task : String) (p : GNode × OrchestratorState) : Prop :=
  Relation.ReflTransGen GraphStep (.architect, initState task) p

/-- Inductive invariant of the orchestration graph: the retry bounds keep
their initial values, both counters stay within them, and before the
Architect, Coder and Reviewer nodes there is still review headroom (which is
what lets the Reviewer increment without overshooting). -/
def GraphInv (p : GNode × OrchestratorState) : Prop :=
  p.2.max_retries = 3 ∧ p.2.max_review_attempts = 2 ∧
  p.2.error_count ≤ p.2.max_retries ∧
  p.2.review_attempts ≤ p.2.max_review_attempts ∧
  ((p.1 = .architect ∨ p.1 = .coder ∨ p.1 = .reviewer) →
    p.2.review_attempts < p.2.max_review_attempts)

lemma graphInv_init (task : String) : GraphInv (.architect, initState task) := by
  refine ⟨rfl, rfl, ?_, ?_, ?_⟩ <;> simp [initState]

lemma fix_route_headroom (s : OrchestratorState)
    (h : shouldExecuteOrFix s = .fix) :
    s.review_attempts < s.max_review_attempts := by
  by_contra hge
  have he : shouldExecuteOrFix s = .execute := by
    unfold shouldExecuteOrFix canRetryReview
    split_ifs with h1 h2
    · rfl
    · exact absurd (of_decide_eq_true h2) hge
    · rfl
  rw [he] at h
  exact RouteAfterReview.noConfusion h

lemma graphInv_step {p q : GNode × OrchestratorState}
    (hp : GraphInv p) (hstep : GraphStep p q) : GraphInv q := by
  obtain ⟨hmr, hma, hec, hra, hnode⟩ := hp
  cases hstep with
  | architect_step hf =>
      obtain ⟨f1, f2, f3, f4⟩ := hf
      have hh := hnode (Or.inl rfl)
      unfold GraphInv
      dsimp only at hmr hma hec hra hh ⊢
      exact ⟨by omega, by omega, by omega, by omega, fun _ => by omega⟩
  | coder_step hf =>
      obtain ⟨f1, f2, f3, f4⟩ := hf
      have hh := hnode (Or.inr (Or.inl rfl))
      unfold GraphInv
      dsimp only at hmr hma hec hra hh ⊢
      exact ⟨by omega, by omega, by omega, by omega, fun _ => by omega⟩
  | reviewer_step hf =>
      obtain ⟨f1, f2, f3, f4⟩ := hf
      have hh := hnode (Or.inr (Or.inr rfl))
      unfold GraphInv
      dsimp only at hmr hma hec hra hh ⊢
      rcases hroute : shouldExecuteOrFix _ with _ | _ <;> dsimp only
      · exact ⟨by omega, by omega, by omega, by omega, by intro hn; simp at hn⟩
      · have hfix := fix_route_headroom _ hroute
        exact ⟨by omega, by omega, by omega, by omega, fun _ => hfix⟩
  | @executor_step u v hf =>
      obtain ⟨f1, f2, f3, f4⟩ := hf
      unfold GraphInv
      dsimp only at hmr hma hec hra ⊢
      by_cases hsucc : v.execution_success = true
      · have hred : shouldRetryOrEnd v = (v, .stop) := by
          simp [shouldRetryOrEnd, hsucc]
        rw [hred]
        dsimp only
        exact ⟨by omega, by omega, by omega, by omega, by intro hn; simp at hn⟩
      · by_cases hlt : v.error_count < v.max_retries
        · have hred : shouldRetryOrEnd v =
              ({v with error_count := v.error_count + 1,
                       review_attempts := 0,
                       review_passed := false}, .retry) := by
            simp [shouldRetryOrEnd, canRetry, hsucc, hlt]
          rw [hred]
          dsimp only
          exact ⟨by omega, by omega, by omega, by omega, fun _ => by omega⟩
        · have hred : shouldRetryOrEnd v = (v, .stop) := by
            simp [shouldRetryOrEnd, canRetry, hsucc, hlt]
          rw [hred]
          dsimp only
          exact ⟨by omega, by omega, by omega, by omega, by intro hn; simp at hn⟩

lemma reachable_graphInv {task : String} {p : GNode × OrchestratorState}
    (h : Reachable task p) : GraphInv p := by
  induction h with
  | refl => exact graphInv_init task
  | tail _ hstep ih => exact graphInv_step ih hstep

/-- Claim C3: in every state reachable from the initial orchestration state
by agent-node and routing steps, `0 ≤ error_count ≤ max_retries` and
`0 ≤ review_attempts ≤ max_review_attempts`, the bounds keeping their
default values `max_retries = 3` and `max_review_attempts = 2`. -/
theorem c3_counters_bounded (task : String) (p : GNode × OrchestratorState)
    (h : Reachable task p) :
    0 ≤ p.2.error_count ∧ p.2.error_count ≤ p.2.max_retries ∧
    0 ≤ p.2.review_attempts ∧ p.2.review_attempts ≤ p.2.max_review_attempts ∧
    p.2.max_retries = 3 ∧ p.2.max_review_attempts = 2 := by
  obtain ⟨hmr, hma, hec, hra, _⟩ := reachable_graphInv h
  exact ⟨Nat.zero_le _, hec, Nat.zero_le _, hra, hmr, hma⟩

/-- Witness for C3 at a concrete reachable state (the initial state itself,
reachable by the empty step sequence). -/
theorem c3_counters_bounded_witness :
    (initState "print hello").error_count ≤ (initState "print hello").max_retries ∧
    (initState "print hello").review_attempts ≤
      (initState "print hello").max_review_attempts :=
  ⟨(c3_counters_bounded "print hello" (.architect, initState "print hello")
      Relation.ReflTransGen.refl).2.1,
   (c3_counters_bounded "print hello" (.architect, initState "print hello")
      Relation.ReflTransGen.refl).2.2.2.1⟩

/-- Error categories from `errors.py` (`ErrorCategory`).  The `LOGIC` member
of the Python enum is never produced by `ErrorClassifier.classify` and plays
no role in the verified claims, so it is omitted here; `syn` stands for the
Python `SYNTAX` member. -/
inductive ErrorCategory where
  | syn
  | runtime
  | parse
  | connection
  | timeout
  | unknown
deriving Repr, DecidableEq

/-- Recovery strategies from `errors.py` (`RecoveryStrategy`). -/
inductive RecoveryStrategy where
  | retry
  | fix
  | reformat
  | skip
  | abort
  | reconnect
deriving Repr, DecidableEq

/-- Model of `ClassifiedError` from `errors.py`, restricted to the fields the claims
mention (the optional original exception and context dict are dropped). -/
structure ClassifiedError where
  category : ErrorCategory
  message : String
  recovery_strategy : RecoveryStrategy
deriving Repr, DecidableEq

/-- A single quote character, for patterns that contain one. -/
def squote : String := String.singleton (Char.ofNat 39)

/-- Model of `ErrorClassifier.SYNTAX_PATTERNS` from `errors.py`.  Every pattern in
`errors.py` is a regex literal (the only metacharacters are escaped dots),
so each is embedded as the plain substring it matches. -/
def synPatterns : List String :=
  ["SyntaxError:", "IndentationError:", "TabError:", "invalid syntax",
   "unexpected EOF", "expected " ++ squote ++ ":" ++ squote]

/-- Model of `ErrorClassifier.RUNTIME_PATTERNS` from `errors.py`. -/
def runtimePatterns : List String :=
  ["NameError:", "TypeError:", "ValueError:", "AttributeError:", "KeyError:",
   "IndexError:", "ZeroDivisionError:", "ImportError:",
   "ModuleNotFoundError:", "FileNotFoundError:", "PermissionError:",
   "RuntimeError:"]

/-- Model of `ErrorClassifier.CONNECTION_PATTERNS` from `errors.py`. -/
def connectionPatterns : List String :=
  ["ConnectionError:", "ConnectionRefusedError:", "ConnectionResetError:",
   "BrokenPipeError:", "httpx.ConnectError", "httpx.ReadTimeout",
   "ECONNREFUSED", "Connection refused", "Network is unreachable"]

/-- Model of `ErrorClassifier.TIMEOUT_PATTERNS` from `errors.py`. -/
def timeoutPatterns : List String :=
  ["TimeoutError:", "asyncio.TimeoutError", "httpx.TimeoutException",
   "ReadTimeout", "ConnectTimeout", "timed out"]

/-- Model of `ErrorClassifier.PARSE_PATTERNS` from `errors.py`. -/
def parsePatterns : List String :=
  ["JSONDecodeError:", "json.decoder.JSONDecodeError", "Expecting value:",
   "Invalid JSON", "Unterminated string", "Extra data:"]

/-- Character lists `n` and `h` such that `n` matches at the start of `h`. -/
def leadMatch : List Char → List Char → Bool
  | [], _ => true
  | _ :: _, [] => false
  | a :: as, b :: bs => a == b && leadMatch as bs

/-- Character lists `n` and `h` such that `n` occurs contiguously somewhere
in `h` (substring search, the semantics of `re.search` on a literal
pattern). -/
def subMatch (needle : List Char) : List Char → Bool
  | [] => leadMatch needle []
  | b :: bs => leadMatch needle (b :: bs) || subMatch needle bs

/-- String `hay` contains `needle` as a contiguous substring. -/
def containsSub (hay needle : String) : Bool :=
  subMatch needle.toList hay.toList

/-- ASCII lower-casing of one character (the case folding relevant to the
ASCII-only patterns of `errors.py`). -/
def lowerChar (c : Char) : Char :=
  if 65 ≤ c.toNat ∧ c.toNat ≤ 90 then Char.ofNat (c.toNat + 32) else c

/-- ASCII lower-casing of a string, modelling the case folding performed by
`re.IGNORECASE`. -/
def lowerStr (s : String) : String := String.mk (s.toList.map lowerChar)

/-- Model of `ErrorClassifier._matches_any` from `errors.py`: `re.search(p, text,
re.IGNORECASE)` over literal patterns is case-insensitive substring
search. -/
def matchesAny (text : String) (patterns : List String) : Bool :=
  patterns.any (fun p => containsSub (lowerStr text) (lowerStr p))

/-- Model of `ErrorClassifier.classify` from `errors.py`, as a function of
`str(error)` (the classifier inspects only the error text). -/
def classify (error_str : String) : ClassifiedError :=
  if matchesAny error_str parsePatterns then
    ⟨.parse, error_str, .reformat⟩
  else if matchesAny error_str timeoutPatterns then
    ⟨.timeout, error_str, .retry⟩
  else if matchesAny error_str connectionPatterns then
    ⟨.connection, error_str, .reconnect⟩
  else if matchesAny error_str synPatterns then
    ⟨.syn, error_str, .fix⟩
  else if matchesAny error_str runtimePatterns then
    ⟨.runtime, error_str, .fix⟩
  else
    ⟨.unknown, error_str, .abort⟩

/-- Transcription of the precedence wording of claim C7: the category of the
first matching pattern group, tried in the order parse, timeout,
connection, syntax, runtime, with unknown when none match. -/
def firstMatchCategory (e : String) : ErrorCategory :=
  if matchesAny e parsePatterns then .parse
  else if matchesAny e timeoutPatterns then .timeout
  else if matchesAny e connectionPatterns then .connection
  else if matchesAny e synPatterns then .syn
  else if matchesAny e runtimePatterns then .runtime
  else .unknown

/-- Transcription of the category/strategy table of claim C7: syntax→fix,
runtime→fix, parse→reformat, timeout→retry, connection→reconnect,
unknown→abort. -/
def strategyForCategory : ErrorCategory → RecoveryStrategy
  | .syn => .fix
  | .runtime => .fix
  | .parse => .reformat
  | .timeout => .retry
  | .connection => .reconnect
  | .unknown => .abort

/-- Claim C7: for every error string, `classify` assigns the category of the
first matching pattern group in the order parse, timeout, connection,
syntax, runtime (unknown when none match), and pairs categories with
strategies exactly per the table syntax→fix, runtime→fix, parse→reformat,
timeout→retry, connection→reconnect, unknown→abort. -/
theorem c7_classifier_order (e : String) :
    (classify e).category = firstMatchCategory e ∧
    (classify e).recovery_strategy = strategyForCategory (firstMatchCategory e) := by
  unfold classify firstMatchCategory strategyForCategory
  split_ifs <;> exact ⟨rfl, rfl⟩

/-- Concrete evaluations of the classifier: a timeout message that also
contains a runtime pattern is classified by the earlier (timeout) group,
and an unmatched string falls through to unknown/abort. -/
theorem classify_eval_examples :
    (classify "TypeError: request timed out").category = ErrorCategory.timeout ∧
    (classify "all good").recovery_strategy = RecoveryStrategy.abort := by
  refine ⟨by decide, by decide⟩

/-- Model of `RetryPolicy` from `errors.py`.  Python floats are modelled by `ℚ`; the
delay arithmetic of the claims is exact on the rationals. -/
structure RetryPolicy where
  max_retries : Nat
  initial_delay : ℚ
  max_delay : ℚ
  exponential_base : ℚ
deriving Repr, DecidableEq

/-- Model of `RetryPolicy.get_delay` from `errors.py`:
`min(initial_delay * exponential_base ** attempt, max_delay)`. -/
def getDelay (p : RetryPolicy) (attempt : Nat) : ℚ :=
  min (p.initial_delay * p.exponential_base ^ attempt) p.max_delay

/-- Model of `DEFAULT_RETRY_POLICY` from `errors.py`: `RetryPolicy(max_retries=3)`
with constructor defaults `initial_delay=1.0, max_delay=30.0,
exponential_base=2.0`. -/
def defaultRetryPolicy : RetryPolicy := ⟨3, 1, 30, 2⟩

/-- Model of `JSON_PARSE_RETRY_POLICY` from `errors.py`. -/
def jsonParseRetryPolicy : RetryPolicy := ⟨2, 1, 30, 2⟩

/-- Model of `CONNECTION_RETRY_POLICY` from `errors.py`. -/
def connectionRetryPolicy : RetryPolicy := ⟨5, 2, 30, 2⟩

/-- Counterexample to claim C9 as stated: the monotonicity part fails for a
`RetryPolicy` with a negative `initial_delay` even though its base is ≥ 1
(`get_delay` then decreases: -2 < -1), so "for every RetryPolicy ...
get_delay is monotonic non-decreasing" does not hold without a
non-negativity assumption on `initial_delay`. -/
theorem c9_negative_initial_not_monotone :
    (1 : ℚ) ≤ (RetryPolicy.mk 3 (-1) 30 2).exponential_base ∧
    getDelay (RetryPolicy.mk 3 (-1) 30 2) 1 <
      getDelay (RetryPolicy.mk 3 (-1) 30 2) 0 := by
  constructor <;> norm_num [getDelay]

/-- Claim C9 (amended): `get_delay(k)` always equals
`min(initial_delay * base^k, max_delay)` and is bounded above by
`max_delay`; and it is monotonic non-decreasing in `k` provided
`initial_delay ≥ 0` as well as `base ≥ 1`. -/
theorem c9_delay_formula_monotone (p : RetryPolicy) :
    (∀ k, getDelay p k =
      min (p.initial_delay * p.exponential_base ^ k) p.max_delay) ∧
    (∀ k, getDelay p k ≤ p.max_delay) ∧
    (0 ≤ p.initial_delay → 1 ≤ p.exponential_base → Monotone (getDelay p)) := by
  refine ⟨fun k => rfl, fun k => min_le_right _ _,
    fun h0 h1 => monotone_nat_of_le_succ fun n => ?_⟩
  have hpow : p.exponential_base ^ n ≤ p.exponential_base ^ (n + 1) :=
    pow_le_pow_right₀ h1 (Nat.le_succ n)
  exact min_le_min (mul_le_mul_of_nonneg_left hpow h0) le_rfl

/-- Witness for the amended monotonicity of C9 at the default policy
(1·2^1 = 2 ≤ 4 = 1·2^2). -/
theorem c9_delay_formula_monotone_witness :
    getDelay defaultRetryPolicy 1 ≤ getDelay defaultRetryPolicy 2 :=
  (c9_delay_formula_monotone defaultRetryPolicy).2.2
    (by norm_num [defaultRetryPolicy]) (by norm_num [defaultRetryPolicy])
    (by omega)

/-- Model tiers from `TIERED_MODELS` in `inference_client.py` (a Python dict
whose insertion order is large, medium, small).  `_current_tier` is a string
in Python but only ever holds one of the three table keys (initialised to
"large", reassigned only to `tiers[idx+1]`), so it is typed as this
enumeration. -/
inductive ModelTier where
  | large
  | medium
  | small
deriving Repr, DecidableEq

/-- The `model` entry of each `TIERED_MODELS` tier. -/
def tieredModel : ModelTier → String
  | .large => "meta-llama/Llama-3.1-8B-Instruct"
  | .medium => "microsoft/phi-2"
  | .small => "TinyLlama/TinyLlama-1.1B-Chat-v1.0"

/-- The `min_vram_gb` entry of each `TIERED_MODELS` tier. -/
def tieredMinVramGb : ModelTier → Nat
  | .large => 20
  | .medium => 8
  | .small => 4

/-- Model of `list(TIERED_MODELS.keys())` as computed in `_handle_oom_error`. -/
def tierList : List ModelTier := [.large, .medium, .small]

/-- Model of `tiers.index(self._current_tier)` from `_handle_oom_error` (the
`if ... in tiers else 0` guard is vacuous here since every `ModelTier`
occurs in `tierList`). -/
def tierIndex (t : ModelTier) : Nat := tierList.findIdx (· == t)

/-- The OOM-fallback fields of `InferenceClientFactory` (from its
`__init__`): `_oom_count`, `_max_oom_fallbacks` and `_current_tier`. -/
structure FactoryOomState where
  oom_count : Nat
  max_oom_fallbacks : Nat
  current_tier : ModelTier
deriving Repr, DecidableEq

/-- Initial OOM-fallback state from `InferenceClientFactory.__init__`:
count 0, at most 2 fallbacks, tier "large". -/
def initFactoryOomState : FactoryOomState := ⟨0, 2, .large⟩

/-- Model of `CompletionRequest` from `inference_client.py`. -/
structure CompletionRequest where
  messages : List Message
  max_tokens : Nat
  temperature : ℚ
  stream : Bool
  model : String
deriving Repr, DecidableEq

/-- Model of `InferenceClientFactory._handle_oom_error` from `inference_client.py`,
as a pure transition on the factory OOM state: the count is incremented;
if it now exceeds `_max_oom_fallbacks`, or no smaller tier exists, the call
raises `OOMError` (`none`); otherwise `_current_tier` moves to
`tiers[idx+1]`, `request.model` is rewritten to the model of that tier, and the
rewritten request is completed once (a rewritten request). -/
def handleOomError (fs : FactoryOomState) (req : CompletionRequest) :
    FactoryOomState × Option CompletionRequest :=
  let count' := fs.oom_count + 1
  if count' > fs.max_oom_fallbacks then
    ({fs with oom_count := count'}, none)
  else
    let idx := tierIndex fs.current_tier
    if idx < tierList.length - 1 then
      let t := tierList.getD (idx + 1) .small
      ({fs with oom_count := count', current_tier := t},
        some {req with model := tieredModel t})
    else
      ({fs with oom_count := count'}, none)

/-- The tier one step smaller, per the wording of claim C8 of the order
large→medium→small. -/
def nextSmallerTier : ModelTier → Option ModelTier
  | .large => some .medium
  | .medium => some .small
  | .small => none

/-- Transcription of the wording of claim C8: downgrade `_current_tier` exactly
one step in the order large→medium→small and rewrite `request.model` to the
model of the new tier; raise `OOMError` (`none`) once `max_oom_fallbacks`
escalations have been exceeded or no smaller tier exists. -/
def oomFallbackSpec (fs : FactoryOomState) (req : CompletionRequest) :
    FactoryOomState × Option CompletionRequest :=
  if fs.oom_count + 1 > fs.max_oom_fallbacks then
    ({fs with oom_count := fs.oom_count + 1}, none)
  else
    match nextSmallerTier fs.current_tier with
    | some t =>
        ({fs with oom_count := fs.oom_count + 1, current_tier := t},
          some {req with model := tieredModel t})
    | none => ({fs with oom_count := fs.oom_count + 1}, none)

/-- Claim C8: the OOM handler downgrades `_current_tier` exactly one step in
the order large→medium→small, rewrites `request.model` to the model of the
new tier and retries once, and raises `OOMError` once `max_oom_fallbacks`
escalations have been exceeded or no smaller tier exists — with the factory
defaults `max_oom_fallbacks = 2` and initial tier large. -/
theorem c8_oom_fallback (fs : FactoryOomState) (req : CompletionRequest) :
    handleOomError fs req = oomFallbackSpec fs req ∧
    initFactoryOomState.max_oom_fallbacks = 2 ∧
    initFactoryOomState.current_tier = ModelTier.large := by
  refine ⟨?_, rfl, rfl⟩
  rcases fs with ⟨c, m, t⟩
  by_cases h : c + 1 > m
  · simp only [handleOomError, oomFallbackSpec, if_pos h]
  · simp only [handleOomError, oomFallbackSpec, if_neg h]
    cases t <;> rfl

/-- The Python `sep.join(parts)` operation. -/
def joinWith (sep : String) : List String → String
  | [] => ""
  | [x] => x
  | x :: xs => x ++ sep ++ joinWith sep xs

/-- One `f"[{agent}]: {content[:100]}..."` summary line built by
`compress_context` in `state.py`; `msg.get("agent", msg.get("role",
"unknown"))` is `agent` when present, else the (always-present) role. -/
def msgSummaryLine (m : Message) : String :=
  "[" ++ m.agent.getD m.role ++ "]: " ++ String.mk (m.content.toList.take 100)
    ++ "..."

/-- Model of `OrchestratorState.compress_context` from `state.py`: a no-op when there
are at most `keep_recent` messages, otherwise replaces the old messages by a
single summary message, recomputes `context_tokens` as `Σ len(content)//4`
and sets `context_compressed := true`.  (The `keep_recent = 0` case mirrors
CPython slicing, where `messages[:-0]` is empty and `messages[-0:]` is the
whole list.) -/
def compressContext (s : OrchestratorState) (keep_recent : Nat := 5) :
    OrchestratorState :=
  if s.messages.length ≤ keep_recent then s
  else
    let old_messages :=
      if keep_recent = 0 then []
      else s.messages.take (s.messages.length - keep_recent)
    let recent_messages :=
      if keep_recent = 0 then s.messages
      else s.messages.drop (s.messages.length - keep_recent)
    let summary := joinWith "\n" (old_messages.map msgSummaryLine)
    let summary_message : Message :=
      ⟨"system", "Previous conversation summary:\n" ++ summary, none, true⟩
    let new_messages := summary_message :: recent_messages
    {s with messages := new_messages,
            context_tokens :=
              (new_messages.map (fun m => m.content.length / 4)).sum,
            context_compressed := true}

/-- Model of `OrchestratorState.should_compress_context` from `state.py`. -/
def shouldCompressContext (s : OrchestratorState) : Bool :=
  s.context_tokens > s.max_context_tokens

/-- An already-compressed, under-limit conversation that still has more than
`keep_recent` messages: six short messages, `context_compressed = true`,
`context_tokens = 7 ≤ 4096`. -/
def c6CexState : OrchestratorState :=
  {initState "demo" with
    messages := List.replicate 6 ⟨"user", "hello", none, false⟩,
    context_tokens := 7,
    context_compressed := true}

/-- Counterexample to claim C6 as stated: `compress_context` never consults
`context_compressed` or `context_tokens`; on this already-compressed,
under-limit state with six messages it re-summarizes and the message list
changes (and `context_tokens` is recomputed to a different value), so the
call is not a no-op. -/
theorem c6_recompression_changes_messages :
    c6CexState.context_compressed = true ∧
    c6CexState.context_tokens ≤ c6CexState.max_context_tokens ∧
    (compressContext c6CexState).messages ≠ c6CexState.messages ∧
    (compressContext c6CexState).context_tokens ≠ c6CexState.context_tokens := by
  refine ⟨rfl, by decide, by decide, by decide⟩

/-- Claim C6 (amended): `compress_context` is a no-op exactly on the guard
the code actually checks — a conversation with at most `keep_recent`
(default 5) messages; in particular an already-compressed, under-limit
conversation is left unchanged only when it has at most `keep_recent`
messages, and is re-summarized otherwise. -/
theorem c6_compress_noop_small (s : OrchestratorState) (keep_recent : Nat)
    (h : s.messages.length ≤ keep_recent) :
    compressContext s keep_recent = s := by
  unfold compressContext
  rw [if_pos h]

/-- Witness for the amended no-op guard of C6: a compressed, under-limit state
with exactly five messages is unchanged by `compress_context`. -/
theorem c6_compress_noop_small_witness :
    compressContext
      {initState "demo" with
        messages := List.replicate 5 ⟨"user", "hello", none, false⟩,
        context_tokens := 6,
        context_compressed := true} 5 =
      {initState "demo" with
        messages := List.replicate 5 ⟨"user", "hello", none, false⟩,
        context_tokens := 6,
        context_compressed := true} :=
  c6_compress_noop_small _ 5 (by decide)

/-- Model of `CoderAgent._build_file_prompt` from `agents/coder.py`: the per-file
generation prompt, a single user message assembled from the task, the
file path and description, the sibling-file list and the truncated
contents of already-generated siblings. -/
def buildFilePrompt (s : OrchestratorState) (file_spec : FileSpec)
    (all_files : List String) : List Message :=
  let other_files := joinWith "\n"
    ((all_files.filter
        (fun f => f ≠ file_spec.path ++ ": " ++ file_spec.description)).map
      (fun f => "- " ++ f))
  let existing_content :=
    (s.planned_files.filterMap (fun f =>
      if f.generated ∧ f.path ≠ file_spec.path then
        some ("\n\n### " ++ f.path ++ "\n```\n"
          ++ String.mk (f.content.toList.take 500) ++ "...\n```")
      else none)).foldl (· ++ ·) ""
  let prompt :=
    "Generate the content for this file:\n\n**Project Task:** " ++ s.task
    ++ "\n\n**File to Generate:** " ++ file_spec.path
    ++ "\n**Description:** " ++ file_spec.description
    ++ "\n\n**Other Project Files:**\n" ++ other_files
    ++ "\n" ++ (if existing_content ≠ "" then existing_content else "")
    ++ "\n\nGenerate ONLY the content for " ++ file_spec.path
    ++ ". Output the complete file content in a code block."
  [⟨"user", prompt, none, false⟩]

/-- Claim C5 (amended): the per-file generation prompt is built only
from the task, the file spec, the sibling-file list and the generated
sibling contents — it does not read `review_feedback`, `execution_output`,
`review_attempts`, `error_count` or `review_passed`, so it is unchanged
under any values of those fields (no retry conditioning exists in
`_build_file_prompt`). -/
theorem c5_prompt_independent (s : OrchestratorState) (file_spec : FileSpec)
    (all_files : List String) (fb eo : String) (ra ec : Nat) (rp : Bool) :
    buildFilePrompt
      {s with review_feedback := fb, execution_output := eo,
              review_attempts := ra, error_count := ec, review_passed := rp}
      file_spec all_files
      = buildFilePrompt s file_spec all_files := rfl

/-- A retry state for the Coder: a failed review with feedback, a failed
execution with output, while generating `a.py`. -/
def c5CexState : OrchestratorState :=
  {initState "demo" with
    planned_files := [⟨"a.py", "entry point", "", false⟩],
    review_attempts := 1,
    review_passed := false,
    review_feedback := "ZFBZ",
    error_count := 1,
    execution_output := "ZOUTZ"}

/-- The full text of the prompt the Coder builds in `c5CexState`. -/
def c5CexPrompt : String :=
  (buildFilePrompt c5CexState ⟨"a.py", "entry point", "", false⟩
    ["a.py: entry point"]).foldl (fun acc m => acc ++ m.content) ""

/-- Counterexample to claim C5 as stated: in a state with
`review_attempts > 0 ∧ ¬review_passed` the built prompt does not contain the
review feedback, and with `error_count > 0 ∧ execution_output ≠ ""` it does
not contain (any prefix of) the execution output — `_build_file_prompt`
performs no retry conditioning. -/
theorem c5_prompt_omits_feedback :
    c5CexState.review_attempts > 0 ∧
    c5CexState.review_passed = false ∧
    c5CexState.review_feedback = "ZFBZ" ∧
    c5CexState.error_count > 0 ∧
    c5CexState.execution_output = "ZOUTZ" ∧
    containsSub c5CexPrompt "ZFBZ" = false ∧
    containsSub c5CexPrompt "ZOUTZ" = false := by
  refine ⟨by decide, rfl, rfl, by decide, rfl, by decide, by decide⟩

/-- The resolved workspace root: `WORKSPACE_DIR = Path(os.getenv(
"WORKSPACE_DIR", "/workspace"))` in `tools.py`, `agents/coder.py` and
`agents/executor.py`, at its default. -/
def workspaceRoot : String := "/workspace"

/-- The security check of `FileReadTool.execute` (`tools.py` line 199):
`str(filepath).startswith(str(WORKSPACE_DIR.resolve()))`, a plain string
prefix test on the resolved path. -/
def readFileAccessGranted (resolved : String) : Bool :=
  leadMatch workspaceRoot.toList resolved.toList

/-- Whether a resolved absolute path actually lies inside the workspace
root (the notion of containment in the claim): it is the root itself or sits
below `root ++ "/"`. -/
def resolvesInsideWorkspace (resolved : String) : Bool :=
  resolved == workspaceRoot
    || leadMatch (workspaceRoot ++ "/").toList resolved.toList

/-- Outcomes of `FileReadTool.execute` in `tools.py`, in check order:
the `Access denied` failure, the `File not found` failure, the
`Not a file` failure, and a successful numbered-lines read. -/
inductive ReadFileOutcome where
  | accessDenied
  | fileNotFound
  | notAFile
  | ok
deriving Repr, DecidableEq

/-- The control flow of `FileReadTool.execute` on a path whose resolution is
`resolved`, abstracting the filesystem by whether the resolved path exists
and is a regular file: the access check runs first, then existence, then
the regular-file check, then the read succeeds. -/
def readFileOutcome (resolved : String) (file_exists is_file : Bool) :
    ReadFileOutcome :=
  if ¬ readFileAccessGranted resolved then .accessDenied
  else if ¬ file_exists then .fileNotFound
  else if ¬ is_file then .notAFile
  else .ok

/-- Claim C2 evaluated at the failing input: the resolved path
`/workspace2/secret.txt` (e.g. from `path = "../workspace2/secret.txt"`)
lies outside the workspace root `/workspace`, yet the `startswith` prefix
check grants access and the read succeeds instead of failing with `Access
denied`; a plain escape such as `/etc/passwd` is denied, confirming the
intent of the check. -/
theorem c2_prefix_check_admits_sibling :
    resolvesInsideWorkspace "/workspace2/secret.txt" = false ∧
    readFileAccessGranted "/workspace2/secret.txt" = true ∧
    readFileOutcome "/workspace2/secret.txt" true true = .ok ∧
    readFileOutcome "/etc/passwd" true true = .accessDenied := by
  refine ⟨by decide, by decide, by decide, by decide⟩

/-- The filesystem facts `ExecutorAgent._fallback_execution` consults:
whether `WORKSPACE_DIR / "main.py"` exists, and the (full-path) results of
`WORKSPACE_DIR.glob("*.py")`. -/
structure FallbackEnv where
  main_py_exists : Bool
  workspace_py_files : List String
deriving Repr, DecidableEq

/-- Model of `ExecutorAgent._fallback_execution` from `agents/executor.py` (the
legacy single-file path, used when there is no execution plan): the shell
command it passes to `_run_command`, or `none` when no candidate file
exists (in which case no subprocess starts and the execution is reported
failed).  No containment or whitelist check appears anywhere on this
path: whatever `state.file_path` holds is interpolated into
`f"python {state.file_path}"` and spawned with `shell=True`. -/
def fallbackCommand (env : FallbackEnv) (s : OrchestratorState) :
    Option String :=
  if env.main_py_exists then
    some ("python " ++ workspaceRoot ++ "/main.py")
  else if s.file_path ≠ "" then
    some ("python " ++ s.file_path)
  else
    match env.workspace_py_files with
    | [] => none
    | f :: _ => some ("python " ++ f)

/-- The whitelist named by claim C1, `{python, python3, pytest, ruff}`, as worded in
the spec (no such list exists in `agents/executor.py`; the repository
test `test_command_whitelist` imports `ALLOWED_COMMANDS` from
`agents.executor`, which the module does not define). -/
def allowedCommandsSpec : List String :=
  ["python", "python3", "pytest", "ruff"]

/-- Claim C1 evaluated at the failing input: with no execution plan, no
`/workspace/main.py` and `state.file_path = "/etc/passwd"` — a path that
does not resolve inside the workspace root — the fallback still builds and
spawns the command `python /etc/passwd` instead of refusing to start a
subprocess and reporting failure. -/
theorem c1_fallback_escapes_workspace :
    fallbackCommand ⟨false, []⟩ {initState "t" with file_path := "/etc/passwd"}
      = some "python /etc/passwd" ∧
    resolvesInsideWorkspace "/etc/passwd" = false := by
  refine ⟨by decide, by decide⟩

/-- Model of `OrchestrationRequest` from `main.py`: the `POST /orchestrate` body,
with `task` (non-empty) and `max_retries` (validated to 0..10, default
3). -/
structure OrchestrationRequest where
  task : String
  max_retries : Nat
deriving Repr, DecidableEq

/-- Model of `run_orchestration` (`graph.py`) builds its initial state as
`OrchestratorState(task=task)` — defaults for everything else. -/
def runOrchestrationInit (task : String) : OrchestratorState :=
  initState task

/-- The `orchestrate` handler (`main.py`) calls
`run_orchestration(request.task)`: only the task is threaded through;
`request.max_retries` is dropped. -/
def orchestrateInit (req : OrchestrationRequest) : OrchestratorState :=
  runOrchestrationInit req.task

/-- Claim C10: the `max_retries` field of the `POST /orchestrate` body is
never threaded into the orchestration run — the run always starts from the
state default `max_retries = 3`, so any continuation of the run (the whole
orchestration being a function of the initial state) behaves identically
for two requests that differ only in `max_retries`. -/
theorem c10_max_retries_not_threaded {α : Type} (run : OrchestratorState → α)
    (r1 r2 : OrchestrationRequest) (h : r1.task = r2.task) :
    run (orchestrateInit r1) = run (orchestrateInit r2) ∧
    (orchestrateInit r1).max_retries = 3 := by
  constructor
  · unfold orchestrateInit runOrchestrationInit
    rw [h]
  · rfl

/-- Witness for C10 at two concrete requests differing only in
`max_retries` (0 versus 10). -/
theorem c10_max_retries_not_threaded_witness :
    id (orchestrateInit ⟨"print hello world", 0⟩) =
      id (orchestrateInit ⟨"print hello world", 10⟩) ∧
    (orchestrateInit ⟨"print hello world", 0⟩).max_retries = 3 :=
  c10_max_retries_not_threaded id ⟨"print hello world", 0⟩
    ⟨"print hello world", 10⟩ rfl
